import Mathlib

/-!
Shallow embedding of the statistical core of the Baltimore dashboard
(`Baltimore_Dashboard_Updated.py`) and of the sequential pipeline driver
(`full_pipeline.py`), together with theorems settling the frozen claims.

Conventions of the embedding:
* a dataframe row (`pandas` Series obtained from a CSV row) is a list of
  (column name, cell) pairs, where a cell is `Option ℚ`: `none` models a
  missing value (NaN), `some v` a present numeric value;
* a dataframe is a list of rows;
* `pandas` operations that yield NaN for undefined statistics (mean/median
  of an empty column, sample std of fewer than two values, Pearson
  correlation of fewer than two pairs or of a zero-variance column) are
  modelled with `Option`: `none` is the NaN outcome;
* machine floats are modelled by exact rationals (reals where a square
  root occurs); float rounding is outside the scope of the claims.
-/

namespace Dashboard

/-- A dataframe row: association list from column name to cell.
A cell is `none` when the value is missing (NaN in pandas). -/
abbrev Row := List (String × Option ℚ)

/-- The value of row `r` in column `k`, collapsing "column absent from the
row" and "value NaN" to `none`.  `pd.notna(tract_data[k])` together with
`k in tract_data.index` holds exactly when this is `some v`. -/
def cellValue (r : Row) (k : String) : Option ℚ :=
  (List.lookup k r).join

/-- `df[k].dropna()`: the non-missing values of column `k`, in row order
(rows lacking the column contribute nothing, as after a pandas concat the
cell would be NaN). -/
def colValues (d : List Row) (k : String) : List ℚ :=
  d.filterMap (fun r => cellValue r k)

/-- `Series.mean()` on a list of values: sum divided by length.
(For the empty list pandas yields NaN; this total version yields `0`;
callers that need the NaN distinction wrap the result in `Option`.) -/
def meanQ (l : List ℚ) : ℚ := l.sum / l.length

/-- The values sorted ascending, as pandas does internally for `median`. -/
def sortQ (l : List ℚ) : List ℚ := l.insertionSort (· ≤ ·)

/-- `Series.median()`: middle element of the sorted values, or the average
of the two middle elements when the count is even. -/
def medianQ (l : List ℚ) : ℚ :=
  let s := sortQ l
  let n := l.length
  if n % 2 = 1 then s.getD (n / 2) 0
  else (s.getD (n / 2 - 1) 0 + s.getD (n / 2) 0) / 2

/-- `Series.min()`: least value, read off as the head of the sorted list. -/
def minQ (l : List ℚ) : ℚ := (sortQ l).headD 0

/-- `Series.max()`: greatest value, read off as the last of the sorted list. -/
def maxQ (l : List ℚ) : ℚ := (sortQ l).getLastD 0

/-- `Series.std()` squared: the sample variance with `n - 1` denominator
(pandas default `ddof=1`).  `none` models the NaN pandas returns for fewer
than two values. -/
def sampleVariance (l : List ℚ) : Option ℚ :=
  if l.length < 2 then none
  else some ((l.map (fun x => (x - meanQ l) ^ 2)).sum / ((l.length : ℚ) - 1))

/-- `Series.std()` itself: square root of the sample variance.  Real-valued
because of the square root; `none` is pandas' NaN. -/
noncomputable def stdDev (l : List ℚ) : Option ℝ :=
  (sampleVariance l).map (fun v => Real.sqrt (v : ℚ))

/-- The summary statistics the city-overview panel computes for one
indicator column (`values = df[indicator].dropna()` followed by
`values.min/median/max/std` and, for the headline metrics, `mean`).
`none` fields are the NaN pandas produces on an empty (resp. singleton)
column. The variance field carries the squared std so the record stays
decidable; `stdDev` is its square root. -/
structure AggregateResult where
  count : Nat
  min : Option ℚ
  median : Option ℚ
  max : Option ℚ
  variance : Option ℚ
  mean : Option ℚ
deriving DecidableEq, Repr

/-- Aggregate statistics of column `k` of dataframe `d`, on the
non-missing values only (lines 160–164 of the dashboard). -/
def aggregate (d : List Row) (k : String) : AggregateResult :=
  let vs := colValues d k
  { count := vs.length
    min := if vs.isEmpty then none else some (minQ vs)
    median := if vs.isEmpty then none else some (medianQ vs)
    max := if vs.isEmpty then none else some (maxQ vs)
    variance := sampleVariance vs
    mean := if vs.isEmpty then none else some (meanQ vs) }

/-- One iteration of the detailed-metrics loops of the neighborhood
explorer (lines 283–291 and 304–313): for a key present in the tract row
with a non-missing value, record `(key, value, diff_pct)` where
`diff_pct = (value - city_avg) / city_avg * 100` guarded by
`city_avg != 0` (else `0`); keys failing the presence guard produce no
entry.  `city_avg` is `df[key].mean()`. -/
def detailedMetricEntries (df : List Row) (r : Row) (ks : List String) :
    List (String × ℚ × ℚ) :=
  ks.filterMap (fun key =>
    match cellValue r key with
    | some value =>
        let cityAvg := meanQ (colValues df key)
        let diffPct := if cityAvg ≠ 0 then (value - cityAvg) / cityAvg * 100 else 0
        some (key, value, diffPct)
    | none => none)

/-- One iteration of the radar-chart loop of the neighborhood explorer
(lines 332–342): for each comparison indicator whose tract value is
present, record `(indicator, tract_val, normalized)` with
`normalized = tract_val / city_val * 100` guarded by `city_val != 0`
(else `100`); missing indicators are skipped, with no placeholder. -/
def radarEntries (df : List Row) (r : Row) (inds : List String) :
    List (String × ℚ × ℚ) :=
  inds.filterMap (fun ind =>
    match cellValue r ind with
    | some tractVal =>
        let cityVal := meanQ (colValues df ind)
        let normalized := if cityVal ≠ 0 then tractVal / cityVal * 100 else 100
        some (ind, tractVal, normalized)
    | none => none)

/-- The radar chart's fixed comparison indicator list (lines 319–326). -/
def comparisonIndicators : List String :=
  ["poverty_rate", "unemployment_rate", "snap_participation_rate",
   "housing_cost_burden_rate", "uninsured_rate", "college_degree_rate"]

/-- The four key-indicator blocks of the neighborhood explorer
(lines 224–265), as (column, uses-median?) pairs: poverty, unemployment
and Gini compare against `df[k].mean()`, while median household income
compares against `df[k].median()`. -/
def keyIndicators : List (String × Bool) :=
  [("poverty_rate", false), ("unemployment_rate", false),
   ("median_household_income_econ", true), ("gini_index", false)]

/-- The `delta` of one key-indicator block: tract value minus the city
aggregate, the aggregate being `df[k].median()` when `useMedian` and
`df[k].mean()` otherwise.  `none` when the tract value is missing (the
code would propagate NaN). -/
def keyIndicatorDelta (df : List Row) (r : Row) (k : String)
    (useMedian : Bool) : Option ℚ :=
  (cellValue r k).map (fun v =>
    v - (if useMedian then medianQ (colValues df k) else meanQ (colValues df k)))

/-- The correlation-strength tiers of the indicator-analysis view. -/
inductive Tier where
  | strong
  | moderate
  | weak
deriving DecidableEq, Repr

/-- Lines 427–432: `abs(corr) > 0.7` is Strong, `elif abs(corr) > 0.4`
Moderate, else Weak.  Generic over the ordered field so the same
translation serves exact rational coefficients and the real-valued
Pearson output. -/
def classifyCorr {α : Type} [LinearOrderedField α] (r : α) : Tier :=
  if |r| > 7 / 10 then Tier.strong
  else if |r| > 4 / 10 then Tier.moderate
  else Tier.weak

/-- `df[[kx, ky]]` restricted to rows where both cells are non-missing:
the pairwise complete-case pairs pandas correlates. -/
def pairedValues (d : List Row) (kx ky : String) : List (ℚ × ℚ) :=
  d.filterMap (fun r =>
    match cellValue r kx, cellValue r ky with
    | some x, some y => some (x, y)
    | _, _ => none)

/-- `df[[x_var, y_var]].corr().iloc[0, 1]` (line 424): the Pearson
coefficient over the pairwise complete cases.  `none` models the NaN
pandas returns when fewer than 2 pairs exist or either column has zero
variance over the pairs; otherwise the coefficient
`cov / sqrt(varx * vary)` (the `1/n` factors cancel). -/
noncomputable def pearson (d : List Row) (kx ky : String) : Option ℝ :=
  let ps := pairedValues d kx ky
  if ps.length < 2 then none
  else
    let mx := meanQ (ps.map Prod.fst)
    let my := meanQ (ps.map Prod.snd)
    let cov : ℚ := (ps.map (fun p => (p.1 - mx) * (p.2 - my))).sum
    let vx : ℚ := (ps.map (fun p => (p.1 - mx) ^ 2)).sum
    let vy : ℚ := (ps.map (fun p => (p.2 - my) ^ 2)).sum
    if vx = 0 ∨ vy = 0 then none
    else some ((cov : ℝ) / Real.sqrt ((vx : ℝ) * (vy : ℝ)))

/-- The correlation tail of `show_indicator_analysis` (lines 423–432):
the displayed coefficient and the tier the `if/elif/else` chain picks.
There is no raise and no try/except on this path: a NaN coefficient
(`none`) makes both float comparisons `False` in Python, so the chain
falls through to Weak. -/
noncomputable def indicatorAnalysis (d : List Row) (kx ky : String) :
    Option ℝ × Tier :=
  let corr := pearson d kx ky
  (corr, match corr with
         | some r => classifyCorr r
         | none => Tier.weak)

/-! ### DatasetLoader (`load_data`, lines 50–58)

The pandas boundary: `pd.read_csv` raises `FileNotFoundError` when the
path does not exist and `EmptyDataError` (or a parser error) when the
file has no parseable content; a file with a header row and zero data
rows parses into an empty dataframe without raising. -/

/-- The state of the source file as `pd.read_csv` sees it. -/
inductive CSVSource where
  | missing
  | malformed
  | table (header : List String) (rows : List Row)
deriving DecidableEq

/-- Outcome of `pd.read_csv` at the boundary modelled above. -/
def read_csv (src : CSVSource) : Except Unit (List String × List Row) :=
  match src with
  | CSVSource.missing => Except.error ()
  | CSVSource.malformed => Except.error ()
  | CSVSource.table h rows => Except.ok (h, rows)

/-- `load_data` (lines 50–58): return the dataframe on success; the bare
`except:` turns any read error into the `None` sentinel (after showing an
error message), which `main` (lines 66–69) treats as "halt the view". -/
def load_data (src : CSVSource) : Option (List String × List Row) :=
  match read_csv src with
  | Except.ok df => some df
  | Except.error _ => none

end Dashboard

namespace Pipeline

/-- Outcome of one subprocess step as `run_script` observes it
(`full_pipeline.py` lines 42–73): exit code 0, a non-zero exit code, the
5-minute `TimeoutExpired`, or some other exception from `subprocess.run`. -/
inductive StepResult where
  | success
  | failed (exitCode : Int)
  | timedOut
  | raised
deriving DecidableEq

/-- `run_script` (lines 26–73): `True` exactly when the subprocess
finished with return code 0; a non-zero exit, a timeout, or an exception
all yield `False`. -/
def run_script (env : String → StepResult) (s : String) : Bool :=
  match env s with
  | StepResult.success => true
  | StepResult.failed _ => false
  | StepResult.timedOut => false
  | StepResult.raised => false

/-- The extraction scripts, in order (lines 112–115). -/
def extractionScripts : List String :=
  ["expand_health_indicators.py", "fetch_census_economic_data.py"]

/-- The integration script (lines 129–132). -/
def integrationScript : String := "integrate_economic_data.py"

/-- The dashboard-generation script (lines 139–142). -/
def generationScript : String := "Baltimore_MetricsWithMap.py"

/-- Run a list of scripts in order, stopping at the first failure
(the loop of `run_data_extraction`, lines 117–121): returns the success
flag and the list of scripts actually attempted. -/
def runSteps (env : String → StepResult) : List String → Bool × List String
  | [] => (true, [])
  | s :: rest =>
      if run_script env s then
        let (ok, tr) := runSteps env rest
        (ok, s :: tr)
      else (false, [s])

/-- The four expected output files of the validation phase
(lines 154–188). -/
def healthFile : String := "data/health_expanded/baltimore_health_35indicators_2022.csv"

/-- Economic data file checked by validation. -/
def econFile : String := "data/economic/baltimore_economic_data_2022.csv"

/-- Integrated data file checked by validation. -/
def integratedFile : String := "data/integrated/baltimore_integrated_health_economic_2022.csv"

/-- Dashboard HTML file checked by validation. -/
def dashboardFile : String := "output/dashboard_multi_year.html"

/-- Number of validation checks that pass (`run_validation`, lines
145–205): four file-existence checks plus the tract-count check, which
passes only when reading the integrated file succeeds (`rows ≠ none`) and
yields exactly 199 rows. -/
def validationChecksPassed (fs : String → Bool) (rows : Option Nat) : Nat :=
  (if fs healthFile then 1 else 0) +
  (if fs econFile then 1 else 0) +
  (if fs integratedFile then 1 else 0) +
  (if fs dashboardFile then 1 else 0) +
  (if rows = some 199 then 1 else 0)

/-- `run_validation`'s return value (line 205): all 5 checks passed. -/
def run_validation (fs : String → Bool) (rows : Option Nat) : Bool :=
  validationChecksPassed fs rows = 5

/-- The scripts a full (non-validate-only) run attempts, honouring
`--skip-download` (lines 258–266): extraction (unless skipped), then
integration, then generation, each gated on all previous succeeding. -/
def scriptSequence (skipDownload : Bool) : List String :=
  (if skipDownload then [] else extractionScripts) ++
    [integrationScript, generationScript]

/-- `main` (lines 233–276), modelled on its inputs: the step environment,
the file system seen by validation, the row count of the integrated file,
and the two flags.  Returns the process exit status (line 276:
`0 if success else 1`) and the list of scripts attempted.  In a full run
the result of the final `run_validation()` call is discarded (line 269):
it does not feed into `success`. -/
def mainRun (env : String → StepResult) (fs : String → Bool)
    (rows : Option Nat) (skipDownload validateOnly : Bool) :
    Nat × List String :=
  if validateOnly then
    (if run_validation fs rows then 0 else 1, [])
  else
    let (ok, tr) := runSteps env (scriptSequence skipDownload)
    (if ok then 0 else 1, tr)

end Pipeline

namespace Dashboard

/-! ### Helper lemmas -/

/-- Sorting is a function of the multiset of values. -/
theorem sortQ_eq_of_perm {l l' : List ℚ} (h : l.Perm l') : sortQ l = sortQ l' :=
  List.eq_of_perm_of_sorted
    ((List.perm_insertionSort _ l).trans (h.trans (List.perm_insertionSort _ l').symm))
    (List.sorted_insertionSort _ l) (List.sorted_insertionSort _ l')

/-- Row permutation permutes each extracted column. -/
theorem colValues_perm {d d' : List Row} (k : String) (h : d.Perm d') :
    (colValues d k).Perm (colValues d' k) :=
  h.filterMap _

/-- A row with no value in column `k` contributes nothing to that column. -/
theorem colValues_append_missing {r : Row} {k : String}
    (h : cellValue r k = none) (d : List Row) :
    colValues (d ++ [r]) k = colValues d k := by
  simp [colValues, List.filterMap_append, h]

theorem meanQ_eq_of_perm {l l' : List ℚ} (h : l.Perm l') : meanQ l = meanQ l' := by
  simp [meanQ, h.sum_eq, h.length_eq]

theorem sampleVariance_eq_of_perm {l l' : List ℚ} (h : l.Perm l') :
    sampleVariance l = sampleVariance l' := by
  have hm := meanQ_eq_of_perm h
  simp only [sampleVariance, h.length_eq, hm, (h.map _).sum_eq]

/-- The six summary statistics depend only on the multiset of values. -/
theorem aggregate_eq_of_perm {d d' : List Row} (k : String) (h : d.Perm d') :
    aggregate d k = aggregate d' k := by
  have hc := colValues_perm k h
  have hs := sortQ_eq_of_perm hc
  simp only [aggregate, hc.length_eq, List.isEmpty_iff_length_eq_zero,
    meanQ_eq_of_perm hc, sampleVariance_eq_of_perm hc, medianQ, minQ, maxQ, hs]

/-! ### Claim theorems -/

/-- Claim C5: the aggregate statistics of an indicator column (min,
median, max, standard deviation — via its square, plus the mean) depend
only on the multiset of non-missing values: permuting the dataset's rows
changes no statistic, and appending a row whose value in that column is
missing changes no statistic. -/
theorem aggregate_multiset_invariance (d d' : List Row) (r : Row) (k : String)
    (hperm : d.Perm d') (hmiss : cellValue r k = none) :
    aggregate d k = aggregate d' k ∧
    aggregate (d ++ [r]) k = aggregate d k ∧
    stdDev (colValues d k) = stdDev (colValues d' k) ∧
    stdDev (colValues (d ++ [r]) k) = stdDev (colValues d k) := by
  refine ⟨aggregate_eq_of_perm k hperm, ?_, ?_, ?_⟩
  · simp only [aggregate, colValues_append_missing hmiss d]
  · unfold stdDev
    rw [sampleVariance_eq_of_perm (colValues_perm k hperm)]
  · unfold stdDev
    rw [colValues_append_missing hmiss d]

/-- Claim C5 witness: concrete instance, permuting two rows and appending
a row with a missing `poverty_rate`. -/
theorem aggregate_multiset_invariance_witness :
    aggregate [[("poverty_rate", some 10)], [("poverty_rate", some 20)]]
        "poverty_rate" =
      aggregate [[("poverty_rate", some 20)], [("poverty_rate", some 10)]]
        "poverty_rate" ∧
    aggregate ([[("poverty_rate", some 10)], [("poverty_rate", some 20)]] ++
        [[("poverty_rate", none), ("tract", some 3)]]) "poverty_rate" =
      aggregate [[("poverty_rate", some 10)], [("poverty_rate", some 20)]]
        "poverty_rate" := by
  have h := aggregate_multiset_invariance
    [[("poverty_rate", some 10)], [("poverty_rate", some 20)]]
    [[("poverty_rate", some 20)], [("poverty_rate", some 10)]]
    [("poverty_rate", none), ("tract", some 3)] "poverty_rate"
    (by decide) (by decide)
  exact ⟨h.1, h.2.1⟩

/-- Claim C2: the correlation strength tiering: `|r| > 0.7` is Strong,
`0.4 < |r| ≤ 0.7` is Moderate, `|r| ≤ 0.4` is Weak; in particular a
coefficient of exactly `0.70` is Moderate and exactly `0.40` is Weak. -/
theorem correlation_tiering (r : ℚ) :
    (7 / 10 < |r| → classifyCorr r = Tier.strong) ∧
    (4 / 10 < |r| ∧ |r| ≤ 7 / 10 → classifyCorr r = Tier.moderate) ∧
    (|r| ≤ 4 / 10 → classifyCorr r = Tier.weak) ∧
    classifyCorr ((7 : ℚ) / 10) = Tier.moderate ∧
    classifyCorr ((4 : ℚ) / 10) = Tier.weak := by
  have h7 : |(7 : ℚ) / 10| = 7 / 10 := by rw [abs_of_pos]; norm_num
  have h4 : |(4 : ℚ) / 10| = 4 / 10 := by rw [abs_of_pos]; norm_num
  refine ⟨fun h => ?_, fun h => ?_, fun h => ?_, ?_, ?_⟩
  · simp [classifyCorr, h]
  · simp [classifyCorr, h.1, not_lt.mpr h.2]
  · have h4' : ¬ (4 : ℚ) / 10 < |r| := not_lt.mpr h
    have h7' : ¬ (7 : ℚ) / 10 < |r| := not_lt.mpr (h.trans (by norm_num))
    simp [classifyCorr, h4', h7']
  · simp [classifyCorr, h7]; norm_num
  · simp [classifyCorr, h4]; norm_num

/-- Claim C2 witness: the tiering at concrete coefficients 0.8, 0.5, 0.7
and 0.4. -/
theorem correlation_tiering_witness :
    classifyCorr ((8 : ℚ) / 10) = Tier.strong ∧
    classifyCorr ((5 : ℚ) / 10) = Tier.moderate ∧
    classifyCorr ((7 : ℚ) / 10) = Tier.moderate ∧
    classifyCorr ((4 : ℚ) / 10) = Tier.weak := by
  have h8 : |(8 : ℚ) / 10| = 8 / 10 := by rw [abs_of_pos]; norm_num
  have h5 : |(5 : ℚ) / 10| = 5 / 10 := by rw [abs_of_pos]; norm_num
  exact ⟨(correlation_tiering (8 / 10)).1 (by rw [h8]; norm_num),
    (correlation_tiering (5 / 10)).2.1 ⟨by rw [h5]; norm_num, by rw [h5]; norm_num⟩,
    (correlation_tiering 0).2.2.2.1,
    (correlation_tiering 0).2.2.2.2⟩

/-- First tract of the three-tract scenario of claim C6. -/
def tractRowA : Row := [("tract", some 1), ("poverty_rate", some 10)]

/-- Second tract of the three-tract scenario of claim C6. -/
def tractRowB : Row := [("tract", some 2), ("poverty_rate", some 20)]

/-- Third tract of the three-tract scenario of claim C6 (the compared
tract, poverty value 30). -/
def tractRowC : Row := [("tract", some 3), ("poverty_rate", some 30)]

/-- The three-tract scenario dataset with `poverty_rate` = [10, 20, 30]. -/
def scenarioData : List Row := [tractRowA, tractRowB, tractRowC]

/-- Claim C6: on the three-tract dataset with `poverty_rate` values
[10, 20, 30], the aggregate gives min 10, median 20, max 30 and mean 20,
and comparing the tract with value 30 gives delta +10, percent delta +50
and normalized value 150. -/
theorem scenario_three_tracts :
    (aggregate scenarioData "poverty_rate").min = some 10 ∧
    (aggregate scenarioData "poverty_rate").median = some 20 ∧
    (aggregate scenarioData "poverty_rate").max = some 30 ∧
    (aggregate scenarioData "poverty_rate").mean = some 20 ∧
    keyIndicatorDelta scenarioData tractRowC "poverty_rate" false = some 10 ∧
    detailedMetricEntries scenarioData tractRowC ["poverty_rate"] =
      [("poverty_rate", 30, 50)] ∧
    radarEntries scenarioData tractRowC ["poverty_rate"] =
      [("poverty_rate", 30, 150)] := by
  have hcol : colValues scenarioData "poverty_rate" = [10, 20, 30] := by decide
  have hsort : sortQ [(10 : ℚ), 20, 30] = [10, 20, 30] := by decide
  have hmean : meanQ [(10 : ℚ), 20, 30] = 20 := by norm_num [meanQ]
  have hcell : cellValue tractRowC "poverty_rate" = some 30 := by decide
  refine ⟨?_, ?_, ?_, ?_, ?_, ?_, ?_⟩
  · simp [aggregate, hcol, minQ, hsort]
  · simp [aggregate, hcol, medianQ, hsort]
  · simp [aggregate, hcol, maxQ, hsort]
  · simp [aggregate, hcol, hmean]
  · norm_num [keyIndicatorDelta, hcell, hcol, hmean]
  · norm_num [detailedMetricEntries, List.filterMap_cons, hcell, hcol, hmean]
  · norm_num [radarEntries, List.filterMap_cons, hcell, hcol, hmean]

/-- Unpacking one detailed-metrics entry: the tract value was present and
the percent difference is the guarded quotient. -/
theorem mem_detailedMetricEntries {df : List Row} {r : Row} {ks : List String}
    {k : String} {v p : ℚ} (h : (k, v, p) ∈ detailedMetricEntries df r ks) :
    cellValue r k = some v ∧
    p = if meanQ (colValues df k) ≠ 0
        then (v - meanQ (colValues df k)) / meanQ (colValues df k) * 100
        else 0 := by
  simp only [detailedMetricEntries, List.mem_filterMap] at h
  obtain ⟨a, _, hf⟩ := h
  cases hc : cellValue r a with
  | none => rw [hc] at hf; simp at hf
  | some w =>
      rw [hc] at hf
      simp only [Option.some.injEq, Prod.ext_iff] at hf
      obtain ⟨h1, h2, h3⟩ := hf
      subst h1; subst h2; subst h3
      exact ⟨hc, rfl⟩

/-- Unpacking one radar entry: the tract value was present and the
normalized value is the guarded quotient. -/
theorem mem_radarEntries {df : List Row} {r : Row} {inds : List String}
    {k : String} {v n : ℚ} (h : (k, v, n) ∈ radarEntries df r inds) :
    cellValue r k = some v ∧
    n = if meanQ (colValues df k) ≠ 0
        then v / meanQ (colValues df k) * 100
        else 100 := by
  simp only [radarEntries, List.mem_filterMap] at h
  obtain ⟨a, _, hf⟩ := h
  cases hc : cellValue r a with
  | none => rw [hc] at hf; simp at hf
  | some w =>
      rw [hc] at hf
      simp only [Option.some.injEq, Prod.ext_iff] at hf
      obtain ⟨h1, h2, h3⟩ := hf
      subst h1; subst h2; subst h3
      exact ⟨hc, rfl⟩

/-- Claim C1: in the tract-vs-city comparison, an indicator whose city
mean is 0 gets percent delta 0 and normalized value 100 (the computation
is total — the zero-division guard never lets a division by zero
through), and an indicator with nonzero city mean gets
`percent_delta = (value - mean)/mean * 100` and
`normalized = value/mean * 100`. -/
theorem comparison_zero_division_policy (df : List Row) (r : Row)
    (ks inds : List String) :
    (∀ k v p, (k, v, p) ∈ detailedMetricEntries df r ks →
      (meanQ (colValues df k) = 0 → p = 0) ∧
      (meanQ (colValues df k) ≠ 0 →
        p = (v - meanQ (colValues df k)) / meanQ (colValues df k) * 100)) ∧
    (∀ k v n, (k, v, n) ∈ radarEntries df r inds →
      (meanQ (colValues df k) = 0 → n = 100) ∧
      (meanQ (colValues df k) ≠ 0 →
        n = v / meanQ (colValues df k) * 100)) := by
  constructor
  · intro k v p hmem
    obtain ⟨-, hp⟩ := mem_detailedMetricEntries hmem
    exact ⟨fun h0 => by rw [hp]; simp [h0], fun hne => by rw [hp]; simp [hne]⟩
  · intro k v n hmem
    obtain ⟨-, hn⟩ := mem_radarEntries hmem
    exact ⟨fun h0 => by rw [hn]; simp [h0], fun hne => by rw [hn]; simp [hne]⟩

/-- A tract row whose only indicator value is a zero `vacancy_rate`. -/
def zeroRowA : Row := [("tract", some 1), ("vacancy_rate", some 0)]

/-- A second tract row with a zero `vacancy_rate`. -/
def zeroRowB : Row := [("tract", some 2), ("vacancy_rate", some 0)]

/-- A dataset whose `vacancy_rate` city mean is 0. -/
def zeroMeanData : List Row := [zeroRowA, zeroRowB]

/-- Claim C1 witness: the nonzero-mean branch on the three-tract
scenario and the zero-mean branch on the zero-mean dataset. -/
theorem comparison_zero_division_policy_witness :
    (("poverty_rate", (30 : ℚ), (50 : ℚ)) ∈
      detailedMetricEntries scenarioData tractRowC ["poverty_rate"]) ∧
    (("vacancy_rate", (0 : ℚ), (100 : ℚ)) ∈
      radarEntries zeroMeanData zeroRowA ["vacancy_rate"]) ∧
    (50 : ℚ) = (30 - meanQ (colValues scenarioData "poverty_rate")) /
      meanQ (colValues scenarioData "poverty_rate") * 100 ∧
    (100 : ℚ) = 100 := by
  have hcol : colValues scenarioData "poverty_rate" = [10, 20, 30] := by decide
  have hmean : meanQ [(10 : ℚ), 20, 30] = 20 := by norm_num [meanQ]
  have hzcol : colValues zeroMeanData "vacancy_rate" = [0, 0] := by decide
  have hzmean : meanQ [(0 : ℚ), 0] = 0 := by norm_num [meanQ]
  have hcell : cellValue tractRowC "poverty_rate" = some 30 := by decide
  have hzcell : cellValue zeroRowA "vacancy_rate" = some 0 := by decide
  have hmem1 : ("poverty_rate", (30 : ℚ), (50 : ℚ)) ∈
      detailedMetricEntries scenarioData tractRowC ["poverty_rate"] := by
    norm_num [detailedMetricEntries, List.filterMap_cons, hcell, hcol, hmean]
  have hmem2 : ("vacancy_rate", (0 : ℚ), (100 : ℚ)) ∈
      radarEntries zeroMeanData zeroRowA ["vacancy_rate"] := by
    norm_num [radarEntries, List.filterMap_cons, hzcell, hzcol, hzmean]
  refine ⟨hmem1, hmem2, ?_, ?_⟩
  · exact ((comparison_zero_division_policy scenarioData tractRowC
      ["poverty_rate"] []).1 _ _ _ hmem1).2 (by rw [hcol, hmean]; norm_num)
  · exact ((comparison_zero_division_policy zeroMeanData zeroRowA
      [] ["vacancy_rate"]).2 _ _ _ hmem2).1 (by rw [hzcol, hzmean])

/-- Claim C4: comparison entries keep exactly the indicators whose tract
value is present, in the order of the given key list; missing indicators
leave no placeholder.  Stated for the radar loop and the detailed-metrics
loops alike: the emitted keys are the input keys filtered by presence. -/
theorem comparison_order_and_omission (df : List Row) (r : Row)
    (inds ks : List String) :
    (radarEntries df r inds).map (fun e => e.1) =
      inds.filter (fun k => (cellValue r k).isSome) ∧
    (detailedMetricEntries df r ks).map (fun e => e.1) =
      ks.filter (fun k => (cellValue r k).isSome) := by
  constructor
  · induction inds with
    | nil => rfl
    | cons a t ih =>
        cases h : cellValue r a <;>
          simp [radarEntries, List.filterMap_cons, h, List.filter_cons,
            radarEntries] at ih ⊢ <;> exact ih
  · induction ks with
    | nil => rfl
    | cons a t ih =>
        cases h : cellValue r a <;>
          simp [detailedMetricEntries, List.filterMap_cons, h, List.filter_cons,
            detailedMetricEntries] at ih ⊢ <;> exact ih

/-- Claim C4 witness: a tract row missing `unemployment_rate` produces
entries for exactly the present keys, in list order. -/
theorem comparison_order_and_omission_witness :
    (radarEntries scenarioData
        [("poverty_rate", some 30), ("unemployment_rate", none),
         ("college_degree_rate", some 12)]
        ["poverty_rate", "unemployment_rate", "college_degree_rate"]).map
      (fun e => e.1) =
    ["poverty_rate", "college_degree_rate"] := by
  have h := (comparison_order_and_omission scenarioData
    [("poverty_rate", some 30), ("unemployment_rate", none),
     ("college_degree_rate", some 12)]
    ["poverty_rate", "unemployment_rate", "college_degree_rate"] []).1
  rw [h]
  decide

/-- Claim C7: for every key-indicator block, the displayed delta is the
tract value minus the city aggregate, and the aggregate is the column
median exactly for `median_household_income_econ` and the column mean for
every other indicator. -/
theorem key_indicator_central_tendency (df : List Row) (r : Row)
    (k : String) (m : Bool) (v : ℚ)
    (hk : (k, m) ∈ keyIndicators) (hv : cellValue r k = some v) :
    keyIndicatorDelta df r k m =
      some (v - (if k = "median_household_income_econ"
                 then medianQ (colValues df k)
                 else meanQ (colValues df k))) ∧
    (m = true ↔ k = "median_household_income_econ") := by
  simp only [keyIndicators, List.mem_cons, List.not_mem_nil, or_false,
    Prod.mk.injEq] at hk
  rcases hk with ⟨rfl, rfl⟩ | ⟨rfl, rfl⟩ | ⟨rfl, rfl⟩ | ⟨rfl, rfl⟩ <;>
    simp [keyIndicatorDelta, hv]

/-- Claim C7 witness: income against the median, poverty against the
mean, on a two-tract dataset. -/
theorem key_indicator_central_tendency_witness :
    keyIndicatorDelta
        [[("median_household_income_econ", some 40000)],
         [("median_household_income_econ", some 50000)]]
        [("median_household_income_econ", some 50000)]
        "median_household_income_econ" true =
      some (50000 - medianQ (colValues
        [[("median_household_income_econ", some 40000)],
         [("median_household_income_econ", some 50000)]]
        "median_household_income_econ")) ∧
    keyIndicatorDelta scenarioData tractRowC "poverty_rate" false =
      some (30 - meanQ (colValues scenarioData "poverty_rate")) := by
  have h1 := key_indicator_central_tendency
    [[("median_household_income_econ", some 40000)],
     [("median_household_income_econ", some 50000)]]
    [("median_household_income_econ", some 50000)]
    "median_household_income_econ" true 50000 (by decide) (by decide)
  have h2 := key_indicator_central_tendency scenarioData tractRowC
    "poverty_rate" false 30 (by decide) (by decide)
  constructor
  · rw [h1.1]; simp
  · rw [h2.1]; simp

/-- A dataset offering a single row, hence at most one paired
observation for any two columns. -/
def singlePairData : List Row :=
  [[("tract", some 1), ("poverty_rate", some 10), ("uninsured_rate", some 5)]]

/-- Claim C3 counterexample: on a one-row dataset the correlation path
does not fail — there is no `InsufficientData` (nor any other) error
path in `show_indicator_analysis`; the pandas coefficient is NaN
(modelled `none`), it is displayed, and the `if/elif/else` chain labels
it "Weak correlation" because both NaN comparisons are false. -/
theorem correlation_single_pair_no_failure :
    indicatorAnalysis singlePairData "poverty_rate" "uninsured_rate" =
      (none, Tier.weak) := by
  have hp : pairedValues singlePairData "poverty_rate" "uninsured_rate" =
      [(10, 5)] := by decide
  simp [indicatorAnalysis, pearson, hp]

/-- Claim C3 amended: with fewer than 2 paired non-missing observations
the coefficient is NaN (`none`) and the view classifies it Weak; no
failure is raised. -/
theorem correlation_insufficient_pairs (d : List Row) (kx ky : String)
    (h : (pairedValues d kx ky).length < 2) :
    indicatorAnalysis d kx ky = (none, Tier.weak) := by
  simp [indicatorAnalysis, pearson, h]

/-- Claim C3 amended witness: the one-row dataset. -/
theorem correlation_insufficient_pairs_witness :
    (pairedValues singlePairData "poverty_rate" "uninsured_rate").length < 2 ∧
    indicatorAnalysis singlePairData "poverty_rate" "uninsured_rate" =
      (none, Tier.weak) :=
  ⟨by decide, correlation_insufficient_pairs _ _ _ (by decide)⟩

/-- The header of a well-formed but empty table. -/
def emptyTableHeader : List String := ["tract", "poverty_rate"]

/-- Claim C8 counterexample: a file that parses as a well-formed table
with a header and zero data rows (pandas raises no error for a
header-only CSV) is returned by `load_data` as an empty dataset, not
turned into a failure — contradicting the claim that the loader fails
whenever the table has no rows. -/
theorem loader_returns_zero_row_table :
    load_data (CSVSource.table emptyTableHeader []) =
      some (emptyTableHeader, []) := rfl

/-- Claim C8 amended: `load_data` yields the `None` failure sentinel
exactly when the file is missing or unparseable; any table `pd.read_csv`
accepts — including one with zero data rows — is returned as a dataset. -/
theorem loader_failure_semantics (h : List String) (rows : List Row) :
    load_data CSVSource.missing = none ∧
    load_data CSVSource.malformed = none ∧
    load_data (CSVSource.table h rows) = some (h, rows) :=
  ⟨rfl, rfl, rfl⟩

/-- Claim C8 amended witness: a concrete one-row table is loaded. -/
theorem loader_failure_semantics_witness :
    load_data (CSVSource.table emptyTableHeader [tractRowA]) =
      some (emptyTableHeader, [tractRowA]) :=
  (loader_failure_semantics emptyTableHeader [tractRowA]).2.2

end Dashboard

namespace Pipeline

/-- A run over a script list whose every step succeeds attempts them all. -/
theorem runSteps_all_ok (env : String → StepResult) :
    ∀ l : List String, (∀ s ∈ l, run_script env s = true) →
      runSteps env l = (true, l) := by
  intro l
  induction l with
  | nil => intro _; rfl
  | cons s rest ih =>
      intro h
      have hs : run_script env s = true := h s (List.mem_cons_self s rest)
      have hr := ih (fun t ht => h t (List.mem_cons_of_mem s ht))
      simp [runSteps, hs, hr]

/-- A run over `pre ++ s :: post` where every step of `pre` succeeds and
`s` fails attempts exactly `pre ++ [s]` and reports failure. -/
theorem runSteps_first_fail (env : String → StepResult) :
    ∀ (pre : List String) (s : String) (post : List String),
      (∀ t ∈ pre, run_script env t = true) → run_script env s = false →
      runSteps env (pre ++ s :: post) = (false, pre ++ [s]) := by
  intro pre
  induction pre with
  | nil =>
      intro s post _ hfail
      simp [runSteps, hfail]
  | cons t pre ih =>
      intro s post hpre hfail
      have ht : run_script env t = true := hpre t (List.mem_cons_self t pre)
      have hr := ih s post (fun u hu => hpre u (List.mem_cons_of_mem t hu)) hfail
      simp [runSteps, ht, hr]

/-- The script sequence of a full run has no duplicate script names. -/
theorem scriptSequence_nodup (skip : Bool) : (scriptSequence skip).Nodup := by
  cases skip <;> decide

/-- Claim C9: in a full pipeline run, when a step fails (non-zero exit,
timeout, or exception) after a prefix of successes, the attempted
scripts are exactly that prefix plus the failing step, and no script
scheduled after the failing one is ever attempted. -/
theorem pipeline_halts_at_first_failure (env : String → StepResult)
    (fs : String → Bool) (rows : Option Nat) (skip : Bool)
    (pre post : List String) (s : String)
    (hseq : scriptSequence skip = pre ++ s :: post)
    (hpre : ∀ t ∈ pre, run_script env t = true)
    (hfail : run_script env s = false) :
    (mainRun env fs rows skip false).2 = pre ++ [s] ∧
    ∀ t ∈ post, t ∉ (mainRun env fs rows skip false).2 := by
  have htrace : (mainRun env fs rows skip false).2 = pre ++ [s] := by
    simp only [mainRun, Bool.false_eq_true, if_false, hseq,
      runSteps_first_fail env pre s post hpre hfail]
  refine ⟨htrace, fun t ht hmem => ?_⟩
  rw [htrace] at hmem
  have hnd : (pre ++ s :: post).Nodup := hseq ▸ scriptSequence_nodup skip
  rcases List.mem_append.mp hmem with hp | hs
  · exact (List.disjoint_of_nodup_append hnd) hp (List.mem_cons_of_mem s ht)
  · have : t = s := by simpa using hs
    subst this
    exact (List.nodup_cons.mp (List.nodup_append.mp hnd).2.1).1 ht

/-- Claim C9 witness: an environment where the second extraction script
exits non-zero; the integration script is never attempted. -/
def failEnv : String → StepResult := fun s =>
  if s = "fetch_census_economic_data.py" then StepResult.failed 1
  else StepResult.success

/-- Claim C9 witness: concrete halted run. -/
theorem pipeline_halts_witness :
    (mainRun failEnv (fun _ => true) (some 199) false false).2 =
      ["expand_health_indicators.py", "fetch_census_economic_data.py"] ∧
    "integrate_economic_data.py" ∉
      (mainRun failEnv (fun _ => true) (some 199) false false).2 := by
  have h := pipeline_halts_at_first_failure failEnv (fun _ => true) (some 199)
    false ["expand_health_indicators.py"]
    ["integrate_economic_data.py", "Baltimore_MetricsWithMap.py"]
    "fetch_census_economic_data.py" (by decide) (by decide) (by decide)
  exact ⟨h.1, h.2 _ (by decide)⟩

/-- A step environment where every subprocess exits 0. -/
def allOkEnv : String → StepResult := fun _ => StepResult.success

/-- A file system where every expected file exists except the dashboard
HTML, so the fourth validation check fails. -/
def missingDashboardFS : String → Bool := fun f => !(f == dashboardFile)

/-- Claim C10 counterexample: a full run whose scripts all succeed exits
with status 0 even though a validation check fails — `main` discards the
result of the final `run_validation()` call, so "every executed step,
including the validation checks, passes" is not required for status 0. -/
theorem exit_zero_despite_failed_validation :
    (mainRun allOkEnv missingDashboardFS (some 199) false false).1 = 0 ∧
    run_validation missingDashboardFS (some 199) = false := by decide

/-- Claim C10 amended: the exit status of a full run is 0 exactly when
all attempted pipeline scripts succeed — the validation outcome does not
influence it — while in validate-only mode it is 0 exactly when all five
validation checks pass. -/
theorem exit_status_semantics (env : String → StepResult)
    (fs : String → Bool) (rows : Option Nat) (skip : Bool) :
    ((mainRun env fs rows skip false).1 = 0 ↔
      (runSteps env (scriptSequence skip)).1 = true) ∧
    ((mainRun env fs rows skip true).1 = 0 ↔
      run_validation fs rows = true) := by
  constructor
  · rcases h : runSteps env (scriptSequence skip) with ⟨ok, tr⟩
    simp only [mainRun, Bool.false_eq_true, if_false, h]
    cases ok <;> simp
  · simp only [mainRun, if_true]
    cases h : run_validation fs rows <;> simp [h]

/-- Claim C10 amended witness: concrete runs in both modes. -/
theorem exit_status_semantics_witness :
    (mainRun allOkEnv missingDashboardFS (some 199) false false).1 = 0 ∧
    (mainRun allOkEnv missingDashboardFS (some 199) false true).1 = 1 := by
  have h := exit_status_semantics allOkEnv missingDashboardFS (some 199) false
  constructor
  · exact h.1.mpr (by decide)
  · have h2 : ¬ (mainRun allOkEnv missingDashboardFS (some 199) false true).1 = 0 := by
      intro h0
      have := h.2.mp h0
      revert this
      decide
    have hval : (mainRun allOkEnv missingDashboardFS (some 199) false true).1 = 1 := by
      revert h2
      decide
    exact hval

end Pipeline
